import Mathlib

/-!
Verification development for the chatbot-async-app backend
(src/backend/server.js).  JavaScript runtime values are shallowly embedded
as the inductive `JsValue`; the two Express handlers (`POST /chat`,
`POST /webhook/modelriver`) are translated into pure Lean functions over
explicit state (the `pendingRequests` map and the `conversations` map),
with outbound network calls (the provider dispatch and the callback
forwarding POST) abstracted as outcome parameters.
-/

/-- A JavaScript runtime value as produced by `express.json` body parsing
plus the values the handlers construct.  Numbers are modelled as integers
(no claim depends on float behaviour). -/
inductive JsValue where
  | vUndefined
  | vNull
  | vBool (b : Bool)
  | vNum (n : Int)
  | vStr (s : String)
  | vArr (elems : List JsValue)
  | vObj (fields : List (String × JsValue))

/-- JavaScript truthiness (`Boolean(v)`): `undefined`, `null`, `false`,
`0` and `""` are falsy; every object and array is truthy. -/
def JsValue.truthy : JsValue → Bool
  | .vUndefined => false
  | .vNull => false
  | .vBool b => b
  | .vNum n => n != 0
  | .vStr s => s != ""
  | .vArr _ => true
  | .vObj _ => true

/-- `typeof v === 'object'` — true for plain objects, arrays and `null`. -/
def JsValue.isObjectType : JsValue → Bool
  | .vNull => true
  | .vArr _ => true
  | .vObj _ => true
  | _ => false

/-- `Array.isArray(v)`. -/
def JsValue.isArray : JsValue → Bool
  | .vArr _ => true
  | _ => false

/-- `v === null || v === undefined` (nullish). -/
def jsNullish : JsValue → Bool
  | .vNull => true
  | .vUndefined => true
  | _ => false

/-- First-match lookup in an object's field list (JS objects have unique
keys, so first-match agrees with property lookup). -/
def lookupField : List (String × JsValue) → String → Option JsValue
  | [], _ => none
  | (k', v) :: rest, k => if k' = k then some v else lookupField rest k

/-- Property access `v.k` (with `?.` semantics folded in: access on a
non-object — including `null`/`undefined` where the source guards with
optional chaining — yields `undefined`). -/
def JsValue.getField : JsValue → String → JsValue
  | .vObj fs, k =>
    match lookupField fs k with
    | some v => v
    | none => .vUndefined
  | _, _ => .vUndefined

/-- Assignment of a field in an object literal with spread
(`\x7b...fs, k: x\x7d`): a duplicate key keeps its original position but
takes the new value; a new key is appended. -/
def setFields : List (String × JsValue) → String → JsValue → List (String × JsValue)
  | [], k, x => [(k, x)]
  | (k', v) :: rest, k, x =>
    if k' = k then (k', x) :: rest else (k', v) :: setFields rest k x

/-- `setFields` lifted to a value (identity on non-objects). -/
def setField (v : JsValue) (k : String) (x : JsValue) : JsValue :=
  match v with
  | .vObj fs => .vObj (setFields fs k x)
  | other => other

/-- Index access `v[i]`: array element, object property named by the
decimal index, or single-character string; `undefined` otherwise. -/
def JsValue.getIndex : JsValue → Nat → JsValue
  | .vArr xs, i =>
    match xs.get? i with
    | some v => v
    | none => .vUndefined
  | .vObj fs, i =>
    match lookupField fs (toString i) with
    | some v => v
    | none => .vUndefined
  | .vStr s, i =>
    match s.data.get? i with
    | some c => .vStr (String.mk [c])
    | none => .vUndefined
  | _, _ => .vUndefined

/-- JavaScript `a || b`. -/
def jsOr (a b : JsValue) : JsValue :=
  if a.truthy then a else b

/-- Strict equality `v === "lit"` against a string literal. -/
def strictEqStr (v : JsValue) (s : String) : Bool :=
  match v with
  | .vStr t => t = s
  | _ => false

/-- Structural character-list test used to model
`callbackUrl.startsWith('http')` (the library `String.startsWith` is not
definitionally reducible). -/
def charsPrefix : List Char → List Char → Bool
  | [], _ => true
  | _ :: _, [] => false
  | c :: cs, d :: ds => c == d && charsPrefix cs ds

/-- `s.startsWith(pre)`. -/
def strStartsWith (s pre : String) : Bool :=
  charsPrefix pre.data s.data

/-- An optional header value as the JS expression reading it. -/
def optToJs : Option String → JsValue
  | some s => .vStr s
  | none => .vUndefined

/-- Escape of one character inside a JSON string literal (the common
escapes; other control characters pass through unchanged, which no claim
depends on). -/
def jsonEscapeChar (c : Char) : String :=
  if c = '"' then "\\\""
  else if c = '\\' then "\\\\"
  else if c = '\n' then "\\n"
  else if c = '\r' then "\\r"
  else if c = '\t' then "\\t"
  else String.mk [c]

/-- A JSON string literal with quotes. -/
def jsonQuote (s : String) : String :=
  "\"" ++ String.join (s.data.map jsonEscapeChar) ++ "\""

mutual

/-- `JSON.stringify(v)`: `none` models the JS result `undefined` (for an
`undefined` argument); inside arrays `undefined` serializes as `null`;
inside objects `undefined`-valued fields are dropped. -/
def jsonStringify : JsValue → Option String
  | .vUndefined => none
  | .vNull => some "null"
  | .vBool b => some (if b then "true" else "false")
  | .vNum n => some (toString n)
  | .vStr s => some (jsonQuote s)
  | .vArr xs => some ("[" ++ String.intercalate "," (jsonArrayItems xs) ++ "]")
  | .vObj fs => some ("\x7b" ++ String.intercalate "," (jsonObjectItems fs) ++ "\x7d")

def jsonArrayItems : List JsValue → List String
  | [] => []
  | x :: xs =>
    (match jsonStringify x with
     | some s => s
     | none => "null") :: jsonArrayItems xs

def jsonObjectItems : List (String × JsValue) → List String
  | [] => []
  | (k, v) :: fs =>
    (match jsonStringify v with
     | some s => [jsonQuote k ++ ":" ++ s]
     | none => []) ++ jsonObjectItems fs

end

/-- The context stored by `POST /chat` in the `pendingRequests` map
(server.js line 143): the original message, `Date.now()`, and the two
identifiers generated before dispatch.  `messageId` is always the string
produced by `uuidv4()`; `prompt` and `conversationId` are taken from the
request body and so are arbitrary JS values. -/
structure PendingRequest where
  prompt : JsValue
  timestamp : Int
  conversationId : JsValue
  messageId : String

/-- `SameValueZero` key equality used by a JS `Map`, restricted to the
values that can occur here.  Two objects or arrays compare by reference;
a key stored by one request and a key parsed from a later request are
always distinct references, so object keys never match. -/
def jsKeyEq : JsValue → JsValue → Bool
  | .vUndefined, .vUndefined => true
  | .vNull, .vNull => true
  | .vBool a, .vBool b => a == b
  | .vNum a, .vNum b => a == b
  | .vStr a, .vStr b => a == b
  | _, _ => false

/-- The in-memory `pendingRequests` map (server.js line 39), as an
insertion-ordered association list. -/
abbrev PendingStore := List (JsValue × PendingRequest)

/-- `pendingRequests.get(k)` (server.js line 205). -/
def storeGet : PendingStore → JsValue → Option PendingRequest
  | [], _ => none
  | (k', p) :: rest, k => if jsKeyEq k' k then some p else storeGet rest k

/-- `pendingRequests.set(k, p)` (server.js line 143): updates the value in
place if the key exists, otherwise appends. -/
def storePut : PendingStore → JsValue → PendingRequest → PendingStore
  | [], k, p => [(k, p)]
  | (k', p') :: rest, k, p =>
    if jsKeyEq k' k then (k', p) :: rest else (k', p') :: storePut rest k p

/-- `pendingRequests.delete(k)` (server.js line 254). -/
def storeDelete : PendingStore → JsValue → PendingStore
  | [], _ => []
  | (k', p') :: rest, k =>
    if jsKeyEq k' k then rest else (k', p') :: storeDelete rest k

/-- The webhook handler's lookup-and-delete of the correlation entry
(the `takeIfPresent` of the design: `get` at line 205, `delete` at
line 254). -/
def takeIfPresent (st : PendingStore) (k : JsValue) :
    Option PendingRequest × PendingStore :=
  (storeGet st k, storeDelete st k)

/-- Well-formedness of a map: pairwise distinct keys, as maintained by
`Map.set` / `Map.delete`. -/
def StoreWF (st : PendingStore) : Prop :=
  st.Pairwise (fun a b => jsKeyEq a.1 b.1 = false)

/-- The record the webhook handler builds (server.js lines 231-239),
"what would be saved to DB". -/
structure ResponseRecord where
  id : String
  prompt : JsValue
  response : JsValue
  created_at : String
  channel_id : JsValue
  conversation_id : JsValue
  usage : JsValue

/-- One entry of the `conversations` map (server.js line 38). -/
structure Conversation where
  messages : List ResponseRecord
  createdAt : String

/-- The in-memory `conversations` map, keyed by the (possibly undefined)
conversation id. -/
abbrev ConvStore := List (JsValue × Conversation)

/-- Lines 248-251: create the conversation lazily, then push the record. -/
def convAppend (cs : ConvStore) (k : JsValue) (r : ResponseRecord)
    (now : String) : ConvStore :=
  match cs with
  | [] => [(k, { messages := [r], createdAt := now })]
  | (k', c) :: rest =>
    if jsKeyEq k' k then
      (k', { c with messages := c.messages ++ [r] }) :: rest
    else
      (k', c) :: convAppend rest k r now

/-- An HTTP response as produced by `res.status(..).json(..)`. -/
structure HttpResponse where
  status : Nat
  body : JsValue

/-- Path `d?.choices?.[0]?.message?.content` (server.js line 225). -/
def contentPath (d : JsValue) : JsValue :=
  (((d.getField "choices").getIndex 0).getField "message").getField "content"

/-- Path `d?.response?.choices?.[0]?.message?.content` (line 226). -/
def responseContentPath (d : JsValue) : JsValue :=
  ((((d.getField "response").getField "choices").getIndex 0).getField
    "message").getField "content"

/-- `JSON.stringify(d)` as a JS value (`undefined` when the argument is
`undefined`). -/
def jsStringifyVal (d : JsValue) : JsValue :=
  match jsonStringify d with
  | some s => .vStr s
  | none => .vUndefined

/-- Lines 217-228: extraction of the AI response content from the selected
payload.  The structured-output branch fires when the payload is truthy,
of object type, and its `choices` and `response` fields are both falsy;
otherwise the content is extracted with truthiness-based fallbacks ending
in JSON-text serialization. -/
def extractAiResponse (d : JsValue) : JsValue :=
  if d.truthy && d.isObjectType
      && !(d.getField "choices").truthy && !(d.getField "response").truthy then
    d
  else
    jsOr (jsOr (contentPath d) (responseContentPath d)) (jsStringifyVal d)

/-- `v?.substring(0, 50)` throws a TypeError exactly when `v` is neither
nullish (optional chaining short-circuits) nor a string (on which
`.substring` is a function); on numbers, booleans, arrays and plain
objects the member is `undefined` and the call throws.  This is the
logging expression of server.js lines 243-244. -/
def logCrashes : JsValue → Bool
  | .vNull => false
  | .vUndefined => false
  | .vStr _ => false
  | _ => true

/-- The downstream outcome of the forwarding `axios.post` (line 367):
either an HTTP status was obtained, or the request failed at the network
level (connection error or the 30s timeout elapsing). -/
inductive ForwardOutcome where
  | httpStatus (code : Nat)
  | networkFailure (msg : String)

/-- `validateStatus: (status) => status < 500` (line 373). -/
def validateStatus (s : Nat) : Bool :=
  decide (s < 500)

/-- How the handler treats the outcome: a resolved status (anything
`validateStatus` accepts, including every 4xx) is logged as success and
never retried; a rejection (network failure, timeout, or 5xx) is caught
by the `catch (callbackError)` block, logged, and swallowed. -/
inductive ForwardClass where
  | ack (status : Nat)
  | failureSwallowed

def classifyForward (o : ForwardOutcome) : ForwardClass :=
  match o with
  | .httpStatus s => if validateStatus s then .ack s else .failureSwallowed
  | .networkFailure _ => .failureSwallowed

/-- What the callback-forwarding section (lines 260-413) did. -/
inductive ForwardAction where
  | notAttempted
  | noUrl
  | invalidUrl
  | validationThrowCaught
  | posted (url : String) (payload : JsValue) (timeoutMs : Nat)
      (result : ForwardClass)

/-- Lines 307-337: coercion of the selected callback payload into an
object with the custom ids injected.  The branches mirror the if-chain:
truthy non-array object (merge with spread), array (wrap as `items`),
non-nullish primitive (wrap as `content`), nullish (fixed fallback
object). -/
def enrichData (callbackData : JsValue) (messageId : String)
    (convIdField : JsValue) : JsValue :=
  match callbackData with
  | .vObj fs =>
    .vObj (setFields (setFields fs "id" (.vStr messageId))
      "conversation_id" convIdField)
  | .vArr xs =>
    .vObj [("items", .vArr xs), ("id", .vStr messageId),
      ("conversation_id", convIdField)]
  | .vNull =>
    .vObj [("id", .vStr messageId), ("conversation_id", convIdField),
      ("message", .vStr "Response processed")]
  | .vUndefined =>
    .vObj [("id", .vStr messageId), ("conversation_id", convIdField),
      ("message", .vStr "Response processed")]
  | prim =>
    .vObj [("content", prim), ("id", .vStr messageId),
      ("conversation_id", convIdField)]

/-- Lines 287-301: selection of the callback data — `ai_response.data`
for an event-driven webhook, else `data` when truthy, else the selected
response payload defaulted to an empty object. -/
def callbackDataSelect (data type_ ai_response responseData : JsValue) :
    JsValue :=
  if strictEqStr type_ "task.ai_generated"
      && (ai_response.getField "data").truthy then
    ai_response.getField "data"
  else if data.truthy then
    data
  else
    jsOr responseData (.vObj [])

/-- Lines 260-413: the callback-forwarding step.  Skipped when no
callback URL is present or it is not an http(s) string; otherwise the
callback data is selected (lines 289-301), enriched, wrapped into the
callback payload (lines 340-349), validated (lines 352-355), and posted
with a 30000 ms timeout and `validateStatus` accepting every status
below 500 (lines 367-374).  Every failure is caught and swallowed. -/
def forwardStep (channel_id data meta type_ ai_response responseData
    callbackUrl : JsValue) (messageId : String) (convIdField : JsValue)
    (now : String) (o : ForwardOutcome) : ForwardAction :=
  if !callbackUrl.truthy then
    .noUrl
  else
    match callbackUrl with
    | .vStr u =>
      if strStartsWith u "http" then
        let enriched := enrichData
          (callbackDataSelect data type_ ai_response responseData)
          messageId convIdField
        let callbackPayload : JsValue :=
          .vObj [("data", enriched),
            ("task_id", .vStr messageId),
            ("metadata", .vObj [("conversation_id", convIdField),
              ("channel_id", channel_id),
              ("processed_at", .vStr now),
              ("usage", jsOr (jsOr (jsOr (meta.getField "usage")
                (data.getField "usage"))
                ((ai_response.getField "meta").getField "usage"))
                (.vObj []))])]
        if !(callbackPayload.getField "data").truthy
            || !(callbackPayload.getField "data").isObjectType
            || (callbackPayload.getField "data").isArray then
          .validationThrowCaught
        else
          .posted u callbackPayload 30000 (classifyForward o)
      else
        .invalidUrl
    | _ => .invalidUrl

/-- The full observable result of one webhook request. -/
structure WebhookResult where
  response : HttpResponse
  store : PendingStore
  convs : ConvStore
  record? : Option ResponseRecord
  forward : ForwardAction

/-- The selected response payload: `ai_response?.data || data` (line 194)
re-defaulted at line 218 (`responseData || data`). -/
def selectedPayload (data ai_response : JsValue) : JsValue :=
  jsOr (jsOr (ai_response.getField "data") data) data

/-- Line 213: `customMessageId || uuidv4()` — the matched pending
request's message id when present and truthy, otherwise the fresh
`uuidv4()` value. -/
def webhookMessageId (pending : Option PendingRequest) (freshId : String) :
    String :=
  match pending with
  | some p => if p.messageId = "" then freshId else p.messageId
  | none => freshId

/-- Line 237: `conversation_id: conversationId` — the matched pending
request's conversation id, `undefined` when there was no match. -/
def webhookConvId (pending : Option PendingRequest) : JsValue :=
  match pending with
  | some p => p.conversationId
  | none => .vUndefined

/-- Line 233: `prompt || 'Unknown prompt'` (the destructured `prompt` is
`undefined` when there was no match, so the placeholder is used). -/
def webhookPrompt (pending : Option PendingRequest) : JsValue :=
  match pending with
  | some p => jsOr p.prompt (.vStr "Unknown prompt")
  | none => .vStr "Unknown prompt"

/-- Lines 231-239: the enriched record that would be saved to the DB. -/
def webhookRecordOf (channel_id data meta ai_response : JsValue)
    (pending : Option PendingRequest) (freshId now : String) :
    ResponseRecord :=
  { id := webhookMessageId pending freshId
    prompt := webhookPrompt pending
    response := extractAiResponse (selectedPayload data ai_response)
    created_at := now
    channel_id := channel_id
    conversation_id := webhookConvId pending
    usage := jsOr (meta.getField "usage") (data.getField "usage") }

/-- The `POST /webhook/modelriver` handler body after destructuring
(server.js lines 187-422), as a function of the six body fields it reads,
the legacy callback header, the two shared maps, the `uuidv4()` value it
would draw, and the timestamp.  The forwarding outcome `o` stands for the
downstream behaviour of the callback POST.

The handler computes the record, then evaluates the debug log of lines
241-245; if either `record.prompt` or `record.response` is a truthy
non-string, `?.substring(0, 50)` throws a TypeError there, the outer
catch answers 500, and neither map is touched.  Otherwise the record is
appended, the pending entry deleted, the callback (maybe) forwarded, and
the 200 acknowledgment sent. -/
def processWebhookCore (channel_id data meta callback_url type_
    ai_response : JsValue) (hdrCb : Option String) (store : PendingStore)
    (convs : ConvStore) (freshId : String) (now : String)
    (o : ForwardOutcome) : WebhookResult :=
  let callbackUrl := jsOr callback_url (optToJs hdrCb)
  let responseData := jsOr (ai_response.getField "data") data
  let pending := storeGet store channel_id
  let messageId := webhookMessageId pending freshId
  let record : ResponseRecord :=
    webhookRecordOf channel_id data meta ai_response pending freshId now
  if logCrashes record.prompt || logCrashes record.response then
    { response :=
        { status := 500
          body := .vObj [("error",
            .vStr "record.substring is not a function")] }
      store := store
      convs := convs
      record? := none
      forward := .notAttempted }
  else
    { response :=
        { status := 200
          body := .vObj [("success", .vBool true),
            ("message", .vStr "Webhook processed"),
            ("record_id", .vStr messageId)] }
      store := storeDelete store channel_id
      convs := convAppend convs record.conversation_id record now
      record? := some record
      forward := forwardStep channel_id data meta type_ ai_response
        responseData callbackUrl messageId (webhookConvId pending) now o }

/-- The `POST /webhook/modelriver` handler on a raw body.  Destructuring a
nullish body throws, answered 500 by the outer catch (unreachable behind
`express.json`, which only yields objects and arrays, but kept for
fidelity to the raw JS). -/
def processWebhook (body : JsValue) (hdrCb : Option String)
    (store : PendingStore) (convs : ConvStore) (freshId : String)
    (now : String) (o : ForwardOutcome) : WebhookResult :=
  if jsNullish body then
    { response :=
        { status := 500
          body := .vObj [("error", .vStr "Cannot destructure request body")] }
      store := store
      convs := convs
      record? := none
      forward := .notAttempted }
  else
    processWebhookCore (body.getField "channel_id") (body.getField "data")
      (body.getField "meta") (body.getField "callback_url")
      (body.getField "type") (body.getField "ai_response")
      hdrCb store convs freshId now o

/-- Result of the provider dispatch call `axios.post(.../v1/ai/async)`
(server.js line 123): success with the provider's response data, an HTTP
error response, or a network-level failure. -/
inductive DispatchOutcome where
  | ok (respData : JsValue)
  | httpError (code : Nat) (respData : JsValue)
  | networkError (msg : String)

/-- `error.response?.data` of a failed dispatch. -/
def dispatchRespData : DispatchOutcome → JsValue
  | .httpError _ d => d
  | _ => .vUndefined

/-- `error.message` of a failed dispatch (axios's generic text for an
HTTP error, the network error's own message otherwise). -/
def axiosErrorMessage : DispatchOutcome → String
  | .httpError c _ => "Request failed with status code " ++ toString c
  | .networkError m => m
  | .ok _ => ""

/-- Dispatch did not succeed. -/
def dispatchFailed : DispatchOutcome → Prop
  | .ok _ => False
  | _ => True

/-- `!MODELRIVER_API_KEY` is false (line 86): the credential is a
non-empty string. -/
def keyConfigured : Option String → Bool
  | none => false
  | some s => s != ""

/-- Result of one `POST /chat` request; `dispatched` records whether the
provider call was attempted. -/
structure ChatResult where
  response : HttpResponse
  store : PendingStore
  dispatched : Bool

/-- The `POST /chat` handler (server.js lines 78-167): reject a falsy
message with 400, a missing credential with 500; otherwise dispatch.  On
success store the pending context keyed by the returned `channel_id` and
relay the provider's connection descriptors; on failure the catch block
answers 500 with `error.response?.data?.message || error.message` and
`error.response?.data`, and the store is untouched. -/
def chatHandler (body : JsValue) (apiKey : Option String)
    (genConvId genMsgId : String) (nowTs : Int)
    (dispatch : DispatchOutcome) (store : PendingStore) : ChatResult :=
  let message := body.getField "message"
  if message.truthy = false then
    { response :=
        { status := 400
          body := .vObj [("error", .vStr "Message is required")] }
      store := store
      dispatched := false }
  else if keyConfigured apiKey = false then
    { response :=
        { status := 500
          body := .vObj [("error", .vStr
            "MODELRIVER_API_KEY not configured. Set it in environment variables.")] }
      store := store
      dispatched := false }
  else
    let customConversationId := jsOr (body.getField "conversationId")
      (.vStr genConvId)
    match dispatch with
    | .ok respData =>
      let channel_id := respData.getField "channel_id"
      let pend : PendingRequest :=
        { prompt := message
          timestamp := nowTs
          conversationId := customConversationId
          messageId := genMsgId }
      { response :=
          { status := 200
            body := .vObj [("channel_id", channel_id),
              ("ws_token", respData.getField "ws_token"),
              ("websocket_url", respData.getField "websocket_url"),
              ("websocket_channel", respData.getField "websocket_channel"),
              ("project_id", respData.getField "project_id")] }
        store := storePut store channel_id pend
        dispatched := true }
    | .httpError c d =>
      { response :=
          { status := 500
            body := .vObj [("error", jsOr (d.getField "message")
                (.vStr (axiosErrorMessage (.httpError c d)))),
              ("details", d)] }
        store := store
        dispatched := true }
    | .networkError m =>
      { response :=
          { status := 500
            body := .vObj [("error", .vStr m), ("details", .vUndefined)] }
        store := store
        dispatched := true }

/-- A plain (non-array) object. -/
def isNonArrayObject : JsValue → Bool
  | .vObj _ => true
  | _ => false

/-- The value is `undefined`. -/
def isUndef : JsValue → Bool
  | .vUndefined => true
  | _ => false

/-- The value has the named own field (only objects have fields in the
payloads at issue). -/
def hasField (d : JsValue) (k : String) : Bool :=
  match d with
  | .vObj fs => (lookupField fs k).isSome
  | _ => false

/-- The extraction policy exactly as claim C2 states it: a non-array
object with neither a `choices` nor a `response` field passes through;
otherwise `choices[0].message.content`, falling back to
`response.choices[0].message.content`, falling back to the JSON-text
serialization when neither path exists. -/
def extractPolicyOriginal (p : JsValue) : JsValue :=
  if isNonArrayObject p && !(hasField p "choices") && !(hasField p "response") then
    p
  else if !(isUndef (contentPath p)) then
    contentPath p
  else if !(isUndef (responseContentPath p)) then
    responseContentPath p
  else
    jsStringifyVal p

/-- The named field is absent, or present with a falsy value. -/
def fieldAbsentOrFalsy (d : JsValue) (k : String) : Bool :=
  match d with
  | .vObj fs =>
    match lookupField fs k with
    | none => true
    | some v => !v.truthy
  | _ => true

/-- The value is of object type and truthy — an array or a plain object
(`null` is of object type but falsy). -/
def isObjectLikeValue : JsValue → Bool
  | .vObj _ => true
  | .vArr _ => true
  | _ => false

/-- The amended extraction policy (claim C2 as corrected): a truthy value
of object type — array or plain object — whose `choices` and `response`
fields are both absent or falsy passes through unmodified; otherwise the
result is `choices[0].message.content` when truthy, else
`response.choices[0].message.content` when truthy, else the JSON-text
serialization of the payload. -/
def specExtractAmended (p : JsValue) : JsValue :=
  if isObjectLikeValue p && fieldAbsentOrFalsy p "choices"
      && fieldAbsentOrFalsy p "response" then
    p
  else if (contentPath p).truthy then
    contentPath p
  else if (responseContentPath p).truthy then
    responseContentPath p
  else
    jsStringifyVal p

/-- Looking up the key just set yields the new value. -/
theorem lookupField_setFields_same (fs : List (String × JsValue))
    (k : String) (x : JsValue) :
    lookupField (setFields fs k x) k = some x := by
  induction fs with
  | nil => simp [setFields, lookupField]
  | cons hd tl ih =>
    obtain ⟨k', v⟩ := hd
    by_cases h : k' = k
    · simp [setFields, lookupField, h]
    · simp [setFields, lookupField, h, ih]

/-- Setting one key leaves lookups of other keys unchanged. -/
theorem lookupField_setFields_ne (fs : List (String × JsValue))
    (k j : String) (x : JsValue) (hne : j ≠ k) :
    lookupField (setFields fs k x) j = lookupField fs j := by
  have hkj : ¬ k = j := by
    intro hh
    exact hne hh.symm
  induction fs with
  | nil => simp [setFields, lookupField, hkj]
  | cons hd tl ih =>
    obtain ⟨k', v⟩ := hd
    by_cases h : k' = k
    · have h' : ¬ k' = j := by
        rw [h]
        exact hkj
      simp [setFields, lookupField, h, h', hkj]
    · by_cases h2 : k' = j
      · simp [setFields, lookupField, h, h2, hne]
      · simp [setFields, lookupField, h, h2, ih]

/-- `getField` through `setField` on an object, distinct keys. -/
theorem getField_setField_ne (fs : List (String × JsValue))
    (k j : String) (x : JsValue) (hne : j ≠ k) :
    (setField (.vObj fs) k x).getField j = (JsValue.vObj fs).getField j := by
  simp [setField, JsValue.getField, lookupField_setFields_ne fs k j x hne]

/-- `(a || b) || c` as an explicit truthiness-guarded chain. -/
theorem jsOr_chain (a b c : JsValue) :
    jsOr (jsOr a b) c =
      if a.truthy then a else if b.truthy then b else c := by
  by_cases hA : a.truthy <;> by_cases hB : b.truthy <;> simp [jsOr, hA, hB]

/-- The code's truthy-object test agrees with the amended policy's
"array or plain object" test. -/
theorem truthyObject_eq_objectLike (d : JsValue) :
    (d.truthy && d.isObjectType) = isObjectLikeValue d := by
  cases d <;> simp [JsValue.truthy, JsValue.isObjectType, isObjectLikeValue]

/-- The code's falsy-field test agrees with the amended policy's
"absent or falsy" test. -/
theorem falsyField_eq_absentOrFalsy (d : JsValue) (k : String) :
    (!(d.getField k).truthy) = fieldAbsentOrFalsy d k := by
  match d with
  | .vObj fs =>
    simp only [JsValue.getField, fieldAbsentOrFalsy]
    cases lookupField fs k <;> simp [JsValue.truthy]
  | .vUndefined | .vNull | .vBool _ | .vNum _ | .vStr _ | .vArr _ =>
    simp [JsValue.getField, fieldAbsentOrFalsy, JsValue.truthy]

/-- C2 counterexample: on the selected payload `[1]` (an array), the
claim's stated policy demands the JSON text `"[1]"` (an array is not a
non-array object and has no `choices`/`response` field), but the code's
extraction passes the array through unmodified; moreover a webhook
carrying that payload stores nothing at all — the handler's debug log
throws on the non-string response and the request ends in a 500. -/
theorem c2_extraction_counterexample :
    extractAiResponse (.vArr [.vNum 1]) = .vArr [.vNum 1] ∧
    extractPolicyOriginal (.vArr [.vNum 1]) = .vStr "[1]" ∧
    JsValue.vArr [.vNum 1] ≠ JsValue.vStr "[1]" ∧
    (processWebhook (.vObj [("channel_id", .vStr "ch2"),
        ("data", .vArr [.vNum 1])]) none [] [] "fresh-2" "2026-01-01"
      (.httpStatus 200)).record? = none ∧
    (processWebhook (.vObj [("channel_id", .vStr "ch2"),
        ("data", .vArr [.vNum 1])]) none [] [] "fresh-2" "2026-01-01"
      (.httpStatus 200)).response.status = 500 := by
  refine ⟨by rfl, by rfl, ?_, by rfl, by rfl⟩
  intro h
  cases h

/-- C2 (amended): the extraction of lines 217-228 agrees everywhere with
the amended policy: a truthy value of object type (array or plain
object) whose `choices` and `response` fields are both absent or falsy
is passed through unmodified; otherwise the result is
`choices[0].message.content` when truthy, else
`response.choices[0].message.content` when truthy, else the JSON-text
serialization of the payload. -/
theorem c2_extraction_amended (d : JsValue) :
    extractAiResponse d = specExtractAmended d := by
  unfold extractAiResponse specExtractAmended
  rw [truthyObject_eq_objectLike, falsyField_eq_absentOrFalsy d "choices",
    falsyField_eq_absentOrFalsy d "response", jsOr_chain]

/-- A string key matches itself. -/
theorem jsKeyEq_vStr_self (c : String) :
    jsKeyEq (.vStr c) (.vStr c) = true := by
  simp [jsKeyEq]

/-- Only the equal string value matches a string key. -/
theorem jsKeyEq_vStr_iff (k : JsValue) (c : String) :
    jsKeyEq k (.vStr c) = true ↔ k = .vStr c := by
  cases k <;> simp [jsKeyEq]

/-- A `get` misses when every key in the list differs from the string
key. -/
theorem storeGet_eq_none_of_all_ne (st : PendingStore) (c : String)
    (h : ∀ b ∈ st, jsKeyEq b.1 (.vStr c) = false) :
    storeGet st (.vStr c) = none := by
  induction st with
  | nil => rfl
  | cons hd tl ih =>
    have hhd := h hd (List.mem_cons_self hd tl)
    obtain ⟨k, q⟩ := hd
    simp only [storeGet, hhd]
    simp only [Bool.false_eq_true, if_false]
    exact ih (fun b hb => h b (List.mem_cons_of_mem _ hb))

/-- `get` after `set` with the same string key yields the new value. -/
theorem storeGet_storePut_self (st : PendingStore) (c : String)
    (p : PendingRequest) :
    storeGet (storePut st (.vStr c) p) (.vStr c) = some p := by
  induction st with
  | nil => simp [storePut, storeGet, jsKeyEq_vStr_self]
  | cons hd tl ih =>
    obtain ⟨k, q⟩ := hd
    by_cases h : jsKeyEq k (.vStr c) = true
    · simp [storePut, storeGet, h]
    · simp only [Bool.not_eq_true] at h
      simp [storePut, storeGet, h, ih]

/-- Every member of `set st k p` either has the (string) key `k` or was
already in `st`. -/
theorem mem_storePut (st : PendingStore) (c : String) (p : PendingRequest)
    (b : JsValue × PendingRequest) (hb : b ∈ storePut st (.vStr c) p) :
    b.1 = .vStr c ∨ b ∈ st := by
  induction st with
  | nil =>
    simp only [storePut, List.mem_singleton] at hb
    left
    rw [hb]
  | cons hd tl ih =>
    obtain ⟨k, q⟩ := hd
    by_cases h : jsKeyEq k (.vStr c) = true
    · rw [show storePut ((k, q) :: tl) (.vStr c) p = (k, p) :: tl from by
        simp [storePut, h]] at hb
      rcases List.mem_cons.mp hb with h1 | h2
      · left
        rw [h1]
        exact (jsKeyEq_vStr_iff k c).mp h
      · right
        exact List.mem_cons_of_mem _ h2
    · rw [show storePut ((k, q) :: tl) (.vStr c) p
          = (k, q) :: storePut tl (.vStr c) p from by
        simp [storePut, h]] at hb
      rcases List.mem_cons.mp hb with h1 | h2
      · right
        rw [h1]
        exact List.mem_cons_self _ _
      · rcases ih h2 with h3 | h4
        · left
          exact h3
        · right
          exact List.mem_cons_of_mem _ h4

/-- `Map.set` preserves pairwise-distinct keys. -/
theorem storeWF_storePut (st : PendingStore) (c : String)
    (p : PendingRequest) (hwf : StoreWF st) :
    StoreWF (storePut st (.vStr c) p) := by
  induction st with
  | nil =>
    simp [storePut, StoreWF]
  | cons hd tl ih =>
    obtain ⟨k, q⟩ := hd
    obtain ⟨hdist, hwf'⟩ := List.pairwise_cons.mp hwf
    by_cases h : jsKeyEq k (.vStr c) = true
    · rw [show storePut ((k, q) :: tl) (.vStr c) p = (k, p) :: tl from by
        simp [storePut, h]]
      exact List.pairwise_cons.mpr ⟨hdist, hwf'⟩
    · rw [show storePut ((k, q) :: tl) (.vStr c) p
          = (k, q) :: storePut tl (.vStr c) p from by
        simp [storePut, h]]
      refine List.pairwise_cons.mpr ⟨?_, ih hwf'⟩
      intro b hb
      rcases mem_storePut tl c p b hb with h1 | h2
      · rw [h1]
        simp only [Bool.not_eq_true] at h
        exact h
      · exact hdist b h2

/-- With pairwise-distinct keys, `get` after `delete` of the same string
key misses. -/
theorem storeGet_storeDelete_self (st : PendingStore) (c : String)
    (hwf : StoreWF st) :
    storeGet (storeDelete st (.vStr c)) (.vStr c) = none := by
  induction st with
  | nil => rfl
  | cons hd tl ih =>
    obtain ⟨k, q⟩ := hd
    obtain ⟨hdist, hwf'⟩ := List.pairwise_cons.mp hwf
    by_cases h : jsKeyEq k (.vStr c) = true
    · rw [show storeDelete ((k, q) :: tl) (.vStr c) = tl from by
        simp [storeDelete, h]]
      have hk := (jsKeyEq_vStr_iff k c).mp h
      refine storeGet_eq_none_of_all_ne tl c ?_
      intro b hb
      have hd2 := hdist b hb
      rw [hk] at hd2
      by_contra hx
      have hx' : jsKeyEq b.1 (.vStr c) = true := by
        revert hx
        cases jsKeyEq b.1 (.vStr c) <;> simp
      have hb1 := (jsKeyEq_vStr_iff b.1 c).mp hx'
      rw [hb1, jsKeyEq_vStr_self] at hd2
      exact absurd hd2 (by simp)
    · rw [show storeDelete ((k, q) :: tl) (.vStr c)
          = (k, q) :: storeDelete tl (.vStr c) from by
        simp [storeDelete, h]]
      simp only [Bool.not_eq_true] at h
      simp only [storeGet, h, Bool.false_eq_true, if_false]
      exact ih hwf'

/-- C5: for every well-formed store, channel id `c` and pending request
`p`, after `put(c, p)` the webhook handler's lookup-and-delete
(`takeIfPresent`) returns `p` and removes the entry, so a second
`takeIfPresent(c)` returns none. -/
theorem c5_correlation_take_once (st : PendingStore) (c : String)
    (p : PendingRequest) (hwf : StoreWF st) :
    (takeIfPresent (storePut st (.vStr c) p) (.vStr c)).1 = some p ∧
    (takeIfPresent
      ((takeIfPresent (storePut st (.vStr c) p) (.vStr c)).2)
      (.vStr c)).1 = none := by
  constructor
  · exact storeGet_storePut_self st c p
  · exact storeGet_storeDelete_self (storePut st (.vStr c) p) c
      (storeWF_storePut st c p hwf)

/-- Witness for C5 at the empty store with a concrete pending request. -/
theorem c5_correlation_take_once_witness :
    StoreWF ([] : PendingStore) ∧
    (takeIfPresent (storePut ([] : PendingStore) (.vStr "chan-5")
        ⟨.vStr "hello", 0, .vStr "conv-5", "mid-5"⟩) (.vStr "chan-5")).1
      = some ⟨.vStr "hello", 0, .vStr "conv-5", "mid-5"⟩ :=
  ⟨List.Pairwise.nil,
    (c5_correlation_take_once [] "chan-5"
      ⟨.vStr "hello", 0, .vStr "conv-5", "mid-5"⟩ List.Pairwise.nil).1⟩

/-- The coerced callback data is always a plain (non-array) object. -/
theorem enrichData_isNonArrayObject (cd : JsValue) (mid : String)
    (cid : JsValue) : isNonArrayObject (enrichData cd mid cid) = true := by
  cases cd <;> rfl

/-- C6: for every raw selected callback payload — plain object, array,
string/primitive, or nullish — the coerced `data` is a non-array object
whose `id` field is the custom message id and whose `conversation_id`
field is the (possibly undefined) custom conversation id; when the raw
payload is a plain object, every other key keeps its original value,
while `id` and `conversation_id` are overwritten; and whenever the
forwarding step actually posts, the `data` of the posted payload has
that coerced non-array-object shape. -/
theorem c6_forward_coercion (cd : JsValue) (mid : String) (cid : JsValue) :
    isNonArrayObject (enrichData cd mid cid) = true ∧
    (enrichData cd mid cid).getField "id" = .vStr mid ∧
    (enrichData cd mid cid).getField "conversation_id" = cid ∧
    (∀ fs, cd = .vObj fs → ∀ k, k ≠ "id" → k ≠ "conversation_id" →
      (enrichData cd mid cid).getField k = cd.getField k) ∧
    (∀ ch data meta ty ai rd cb : JsValue, ∀ now : String,
      ∀ o : ForwardOutcome, ∀ u : String, ∀ pl : JsValue, ∀ t : Nat,
      ∀ res : ForwardClass,
      forwardStep ch data meta ty ai rd cb mid cid now o
        = .posted u pl t res →
      isNonArrayObject (pl.getField "data") = true) := by
  refine ⟨enrichData_isNonArrayObject cd mid cid, ?_, ?_, ?_, ?_⟩
  · cases cd <;>
      simp [enrichData, JsValue.getField, lookupField,
        lookupField_setFields_ne _ "conversation_id" "id" _ (by decide),
        lookupField_setFields_same]
  · cases cd <;>
      simp [enrichData, JsValue.getField, lookupField,
        lookupField_setFields_same]
  · rintro fs rfl k hk1 hk2
    simp only [enrichData, JsValue.getField]
    rw [lookupField_setFields_ne _ "conversation_id" k _ hk2,
      lookupField_setFields_ne _ "id" k _ hk1]
  · intro ch data meta ty ai rd cb now o u pl t res h
    unfold forwardStep at h
    split at h
    · simp at h
    · split at h
      · split at h
        · dsimp only at h
          split at h
          · simp at h
          · injection h with h1 h2 h3 h4
            subst h2
            simp only [JsValue.getField, lookupField, if_pos rfl]
            exact enrichData_isNonArrayObject _ mid cid
        · simp at h
      · simp at h

/-- Witness for C6 on a concrete object payload that already carries an
`id` key. -/
theorem c6_forward_coercion_witness :
    (enrichData (.vObj [("x", .vNum 1), ("id", .vNum 5)]) "mid-6"
      (.vStr "conv-6")).getField "id" = .vStr "mid-6" ∧
    (enrichData (.vObj [("x", .vNum 1), ("id", .vNum 5)]) "mid-6"
      (.vStr "conv-6")).getField "x" = .vNum 1 := by
  have h := c6_forward_coercion (.vObj [("x", .vNum 1), ("id", .vNum 5)])
    "mid-6" (.vStr "conv-6")
  exact ⟨h.2.1, h.2.2.2.1 _ rfl "x" (by decide) (by decide)⟩

/-- C3 counterexample: a webhook whose channel id has no pending entry
still creates and stores a record, but its `conversation_id` is
`undefined` — it is not freshly generated (the only generated identifier
is the record id "fresh-3") and not a present identifier at all. -/
theorem c3_counterexample :
    ((processWebhook (.vObj [("channel_id", .vStr "ch-unknown"),
        ("data", .vObj [("choices", .vArr [.vObj [("message",
          .vObj [("content", .vStr "Hi")])]])])]) none [] [] "fresh-3"
      "2026-01-02" (.httpStatus 200)).record?).map
        (fun r => r.conversation_id) = some JsValue.vUndefined ∧
    (processWebhook (.vObj [("channel_id", .vStr "ch-unknown"),
        ("data", .vObj [("choices", .vArr [.vObj [("message",
          .vObj [("content", .vStr "Hi")])]])])]) none [] [] "fresh-3"
      "2026-01-02" (.httpStatus 200)).response.status = 200 ∧
    JsValue.vUndefined ≠ JsValue.vStr "fresh-3" := by
  refine ⟨by rfl, by rfl, ?_⟩
  intro h
  cases h

/-- C3 (amended): every record the webhook handler creates takes its id
from the matched pending request's message id (or the freshly generated
id when there is no usable match) and its conversation id from the
matched pending request (or `undefined` when there is no match); neither
identifier is read from the provider's envelope, but the conversation id
is absent — not freshly generated — on an unmatched webhook. -/
theorem c3_record_identifier_provenance (body : JsValue)
    (hdrCb : Option String) (store : PendingStore) (convs : ConvStore)
    (freshId now : String) (o : ForwardOutcome) (r : ResponseRecord)
    (h : (processWebhook body hdrCb store convs freshId now o).record?
      = some r) :
    (r.id = freshId ∨ ∃ p, storeGet store (body.getField "channel_id")
      = some p ∧ r.id = p.messageId) ∧
    (r.conversation_id = .vUndefined ∨
      ∃ p, storeGet store (body.getField "channel_id") = some p ∧
        r.conversation_id = p.conversationId) := by
  unfold processWebhook at h
  split at h
  · simp at h
  · unfold processWebhookCore at h
    dsimp only at h
    split at h
    · simp at h
    · dsimp only at h
      have hr := Option.some.inj h
      subst hr
      cases hpe : storeGet store (body.getField "channel_id") with
      | none =>
        constructor
        · left
          simp [webhookRecordOf, webhookMessageId, hpe]
        · left
          simp [webhookRecordOf, webhookConvId, hpe]
      | some p =>
        constructor
        · by_cases hm : p.messageId = ""
          · left
            simp [webhookRecordOf, webhookMessageId, hpe, hm]
          · right
            exact ⟨p, rfl, by
              simp [webhookRecordOf, webhookMessageId, hpe, hm]⟩
        · right
          exact ⟨p, rfl, by simp [webhookRecordOf, webhookConvId, hpe]⟩

/-- Witness for C3 on a concrete unmatched webhook. -/
theorem c3_record_identifier_provenance_witness :
    ((⟨"f3w", .vStr "Unknown prompt", .vStr "Hi", "t3w", .vStr "chw",
        .vUndefined, .vUndefined⟩ : ResponseRecord).id = "f3w" ∨
      ∃ p, storeGet ([] : PendingStore)
          ((JsValue.vObj [("channel_id", .vStr "chw"),
            ("data", .vObj [("choices", .vArr [.vObj [("message",
              .vObj [("content", .vStr "Hi")])]])])]).getField
            "channel_id") = some p ∧
        (⟨"f3w", .vStr "Unknown prompt", .vStr "Hi", "t3w", .vStr "chw",
          .vUndefined, .vUndefined⟩ : ResponseRecord).id = p.messageId) ∧
    ((⟨"f3w", .vStr "Unknown prompt", .vStr "Hi", "t3w", .vStr "chw",
        .vUndefined, .vUndefined⟩ : ResponseRecord).conversation_id
        = .vUndefined ∨
      ∃ p, storeGet ([] : PendingStore)
          ((JsValue.vObj [("channel_id", .vStr "chw"),
            ("data", .vObj [("choices", .vArr [.vObj [("message",
              .vObj [("content", .vStr "Hi")])]])])]).getField
            "channel_id") = some p ∧
        (⟨"f3w", .vStr "Unknown prompt", .vStr "Hi", "t3w", .vStr "chw",
          .vUndefined, .vUndefined⟩ : ResponseRecord).conversation_id
          = p.conversationId) :=
  c3_record_identifier_provenance (.vObj [("channel_id", .vStr "chw"),
      ("data", .vObj [("choices", .vArr [.vObj [("message",
        .vObj [("content", .vStr "Hi")])]])])]) none [] [] "f3w" "t3w"
    (.httpStatus 200)
    ⟨"f3w", .vStr "Unknown prompt", .vStr "Hi", "t3w", .vStr "chw",
      .vUndefined, .vUndefined⟩ (by rfl)

/-- C8: POST /chat answers 400 "Message is required" for a falsy
message (absent or empty string), answers 500 when the API credential is
not configured, and dispatches to the provider exactly when the message
is truthy and the credential is configured; for string messages
truthiness is exactly non-emptiness. -/
theorem c8_chat_preconditions (body : JsValue) (apiKey : Option String)
    (genConvId genMsgId : String) (nowTs : Int)
    (dispatch : DispatchOutcome) (store : PendingStore) :
    ((body.getField "message").truthy = false →
      (chatHandler body apiKey genConvId genMsgId nowTs dispatch
        store).response.status = 400 ∧
      (chatHandler body apiKey genConvId genMsgId nowTs dispatch
        store).response.body.getField "error"
          = .vStr "Message is required" ∧
      (chatHandler body apiKey genConvId genMsgId nowTs dispatch
        store).dispatched = false) ∧
    ((body.getField "message").truthy = true →
      keyConfigured apiKey = false →
      (chatHandler body apiKey genConvId genMsgId nowTs dispatch
        store).response.status = 500 ∧
      (chatHandler body apiKey genConvId genMsgId nowTs dispatch
        store).dispatched = false) ∧
    ((chatHandler body apiKey genConvId genMsgId nowTs dispatch
        store).dispatched = true ↔
      ((body.getField "message").truthy = true ∧
        keyConfigured apiKey = true)) ∧
    (∀ s : String, body.getField "message" = .vStr s →
      ((body.getField "message").truthy = true ↔ s ≠ "")) := by
  refine ⟨?_, ?_, ?_, ?_⟩
  · intro h
    refine ⟨?_, ?_, ?_⟩
    · simp only [chatHandler, h]
      simp
    · simp only [chatHandler, h]
      simp [JsValue.getField, lookupField]
    · simp only [chatHandler, h]
      simp
  · intro h1 h2
    constructor
    · simp only [chatHandler, h1, h2]
      simp
    · simp only [chatHandler, h1, h2]
      simp
  · by_cases h1 : (body.getField "message").truthy = true
    · by_cases h2 : keyConfigured apiKey = true
      · simp only [chatHandler, h1, h2]
        cases dispatch <;> simp
      · simp only [Bool.not_eq_true] at h2
        simp only [chatHandler, h1, h2]
        simp
    · simp only [Bool.not_eq_true] at h1
      simp only [chatHandler, h1]
      simp
  · intro s hs
    rw [hs]
    simp [JsValue.truthy]

/-- Witness for C8: an empty body is answered 400 without dispatching. -/
theorem c8_chat_preconditions_witness :
    (chatHandler (.vObj []) (some "key-8") "c8" "m8" 0
      (.ok (.vObj [])) []).response.status = 400 :=
  ((c8_chat_preconditions (.vObj []) (some "key-8") "c8" "m8" 0
    (.ok (.vObj [])) []).1 (by rfl)).1

/-- C9: when the provider dispatch fails (HTTP error or network error),
POST /chat answers 500, the correlation store is left exactly as it was,
the `details` field carries the provider's response data, and the
`error` field carries the provider's own message whenever the provider
response body contains a truthy `message` string (falling back to the
client error text when the provider data has no message). -/
theorem c9_dispatch_failure_no_partial_state (body : JsValue)
    (apiKey : Option String) (genConvId genMsgId : String) (nowTs : Int)
    (dispatch : DispatchOutcome) (store : PendingStore)
    (hmsg : (body.getField "message").truthy = true)
    (hkey : keyConfigured apiKey = true)
    (hfail : dispatchFailed dispatch) :
    (chatHandler body apiKey genConvId genMsgId nowTs dispatch
      store).response.status = 500 ∧
    (chatHandler body apiKey genConvId genMsgId nowTs dispatch
      store).store = store ∧
    (chatHandler body apiKey genConvId genMsgId nowTs dispatch
      store).response.body.getField "details"
        = dispatchRespData dispatch ∧
    (∀ m : String, (dispatchRespData dispatch).getField "message"
        = .vStr m → m ≠ "" →
      (chatHandler body apiKey genConvId genMsgId nowTs dispatch
        store).response.body.getField "error" = .vStr m) ∧
    ((dispatchRespData dispatch).getField "message" = .vUndefined →
      (chatHandler body apiKey genConvId genMsgId nowTs dispatch
        store).response.body.getField "error"
          = .vStr (axiosErrorMessage dispatch)) := by
  cases dispatch with
  | ok respData => exact absurd hfail (by simp [dispatchFailed])
  | httpError c d =>
    refine ⟨?_, ?_, ?_, ?_, ?_⟩
    · simp only [chatHandler, hmsg, hkey]
      simp
    · simp only [chatHandler, hmsg, hkey]
      simp
    · simp only [chatHandler, hmsg, hkey, dispatchRespData]
      simp [JsValue.getField, lookupField]
    · intro m hm hmne
      simp only [dispatchRespData] at hm
      simp only [chatHandler, hmsg, hkey, hm]
      have ht : (JsValue.vStr m).truthy = true := by
        simp [JsValue.truthy, hmne]
      simp only [jsOr, ht]
      simp [JsValue.getField, lookupField]
    · intro hm
      simp only [dispatchRespData] at hm
      simp only [chatHandler, hmsg, hkey, hm]
      simp only [jsOr]
      simp [JsValue.getField, lookupField, JsValue.truthy]
  | networkError m =>
    refine ⟨?_, ?_, ?_, ?_, ?_⟩
    · simp only [chatHandler, hmsg, hkey]
      simp
    · simp only [chatHandler, hmsg, hkey]
      simp
    · simp only [chatHandler, hmsg, hkey, dispatchRespData]
      simp [JsValue.getField, lookupField]
    · intro m' hm
      simp only [dispatchRespData, JsValue.getField] at hm
      cases hm
    · intro hm
      simp only [chatHandler, hmsg, hkey, axiosErrorMessage]
      simp [JsValue.getField, lookupField]

/-- Witness for C9: a concrete provider rejection carrying a message. -/
theorem c9_dispatch_failure_no_partial_state_witness :
    (chatHandler (.vObj [("message", .vStr "hello")]) (some "key-9") "c9"
      "m9" 0 (.httpError 429 (.vObj [("message", .vStr "quota exceeded")]))
      []).response.status = 500 ∧
    (chatHandler (.vObj [("message", .vStr "hello")]) (some "key-9") "c9"
      "m9" 0 (.httpError 429 (.vObj [("message", .vStr "quota exceeded")]))
      []).store = ([] : PendingStore) ∧
    (chatHandler (.vObj [("message", .vStr "hello")]) (some "key-9") "c9"
      "m9" 0 (.httpError 429 (.vObj [("message", .vStr "quota exceeded")]))
      []).response.body.getField "error" = .vStr "quota exceeded" := by
  have h := c9_dispatch_failure_no_partial_state
    (.vObj [("message", .vStr "hello")]) (some "key-9") "c9" "m9" 0
    (.httpError 429 (.vObj [("message", .vStr "quota exceeded")])) []
    (by rfl) (by rfl) trivial
  exact ⟨h.1, h.2.1, h.2.2.2.1 "quota exceeded" (by rfl) (by decide)⟩

/-- C10 counterexample: two webhook envelopes that differ only in
`status` ("success" versus "error") are indeed processed identically,
but for a structured payload NEITHER run creates a ResponseRecord or
returns a 200 acknowledgment — both end in the handler's 500. -/
theorem c10_counterexample :
    processWebhook (.vObj [("channel_id", .vStr "chA"),
        ("status", .vStr "success"),
        ("data", .vObj [("reply", .vStr "ok")])]) none [] [] "fA" "tA"
      (.httpStatus 200) =
      processWebhook (.vObj [("channel_id", .vStr "chA"),
          ("status", .vStr "error"),
          ("data", .vObj [("reply", .vStr "ok")])]) none [] [] "fA" "tA"
        (.httpStatus 200) ∧
    (processWebhook (.vObj [("channel_id", .vStr "chA"),
        ("status", .vStr "success"),
        ("data", .vObj [("reply", .vStr "ok")])]) none [] [] "fA" "tA"
      (.httpStatus 200)).record? = none ∧
    (processWebhook (.vObj [("channel_id", .vStr "chA"),
        ("status", .vStr "success"),
        ("data", .vObj [("reply", .vStr "ok")])]) none [] [] "fA" "tA"
      (.httpStatus 200)).response.status = 500 :=
  ⟨rfl, rfl, rfl⟩

/-- Setting `status` does not change the reading of any other field. -/
theorem processWebhook_ignores_status (fields : List (String × JsValue))
    (sv : JsValue) (hdrCb : Option String) (store : PendingStore)
    (convs : ConvStore) (freshId now : String) (o : ForwardOutcome) :
    processWebhook (setField (.vObj fields) "status" sv) hdrCb store convs
        freshId now o =
      processWebhookCore ((JsValue.vObj fields).getField "channel_id")
        ((JsValue.vObj fields).getField "data")
        ((JsValue.vObj fields).getField "meta")
        ((JsValue.vObj fields).getField "callback_url")
        ((JsValue.vObj fields).getField "type")
        ((JsValue.vObj fields).getField "ai_response")
        hdrCb store convs freshId now o := by
  unfold processWebhook
  rw [if_neg (by simp [setField, jsNullish])]
  rw [getField_setField_ne fields "status" "channel_id" sv (by decide),
    getField_setField_ne fields "status" "data" sv (by decide),
    getField_setField_ne fields "status" "meta" sv (by decide),
    getField_setField_ne fields "status" "callback_url" sv (by decide),
    getField_setField_ne fields "status" "type" sv (by decide),
    getField_setField_ne fields "status" "ai_response" sv (by decide)]

/-- C10 (amended): the webhook handler never inspects the envelope's
`status` field — for any two envelopes that differ only in the value of
`status`, the entire observable result (response, both stores, the
created record if any, and the forwarding action) is identical; when a
record is created it is the same record in both runs, and when the
handler fails both runs fail identically. -/
theorem c10_status_independence (fields : List (String × JsValue))
    (s1 s2 : JsValue) (hdrCb : Option String) (store : PendingStore)
    (convs : ConvStore) (freshId now : String) (o : ForwardOutcome) :
    processWebhook (setField (.vObj fields) "status" s1) hdrCb store convs
        freshId now o =
      processWebhook (setField (.vObj fields) "status" s2) hdrCb store
        convs freshId now o :=
  (processWebhook_ignores_status fields s1 hdrCb store convs freshId now
    o).trans
    (processWebhook_ignores_status fields s2 hdrCb store convs freshId now
      o).symm



/-- C1 (code bug evidence): the webhook route of server.js (lines
184-428) reads no signature or timestamp header and has no 401 path —
the handler model takes no signature input at all because the code
consults none.  A request arriving without an `X-Signature` header (the
failing input: body with channel id "c1" and a plain text choice, no
headers beyond the parsed body) is processed normally: 200 with a
success flag and a record id, and the ResponseRecord is created and
stored in the conversation log — never the 401 missing-signature
rejection the claim (and spec sections 4.1, 6 and 8, and the README's
verification table) require. -/
theorem c1_missing_signature_processed_anyway :
    (processWebhook (.vObj [("channel_id", .vStr "c1"),
        ("data", .vObj [("choices", .vArr [.vObj [("message",
          .vObj [("content", .vStr "Hi")])]])])]) none [] [] "f1" "t1"
      (.httpStatus 200)).response.status = 200 ∧
    (processWebhook (.vObj [("channel_id", .vStr "c1"),
        ("data", .vObj [("choices", .vArr [.vObj [("message",
          .vObj [("content", .vStr "Hi")])]])])]) none [] [] "f1" "t1"
      (.httpStatus 200)).response.body.getField "success" = .vBool true ∧
    (processWebhook (.vObj [("channel_id", .vStr "c1"),
        ("data", .vObj [("choices", .vArr [.vObj [("message",
          .vObj [("content", .vStr "Hi")])]])])]) none [] [] "f1" "t1"
      (.httpStatus 200)).record?
      = some ⟨"f1", .vStr "Unknown prompt", .vStr "Hi", "t1", .vStr "c1",
        .vUndefined, .vUndefined⟩ ∧
    (processWebhook (.vObj [("channel_id", .vStr "c1"),
        ("data", .vObj [("choices", .vArr [.vObj [("message",
          .vObj [("content", .vStr "Hi")])]])])]) none [] [] "f1" "t1"
      (.httpStatus 200)).convs
      = [(.vUndefined,
          { messages := [⟨"f1", .vStr "Unknown prompt", .vStr "Hi", "t1",
              .vStr "c1", .vUndefined, .vUndefined⟩]
            createdAt := "t1" })] :=
  ⟨rfl, rfl, rfl, rfl⟩
